import Mathlib

/-!
Verification development for the GrovQuick business-analysis dashboard
(src/app.py). The metrics engine of the application is embedded shallowly:
pandas dataframes become lists of rows, pandas column arithmetic becomes
exact rational arithmetic, pandas float division (which produces NaN or
signed infinities on a zero denominator) becomes the `PdVal` type, Python
integer division (which raises ZeroDivisionError on a zero denominator)
becomes `Option`, and the dictionary lookup performed by `Series.map`
(which produces NaN for keys absent from the dictionary) becomes `Option`.
-/

/-- One row of the input CSV: the columns of the customer table that the
metrics engine reads. -/
structure CustomerRecord where
  customerID : Nat
  city : String
  zone : String
  customerSegment : String
  avgOrderValue : ℚ
  orderFrequency : ℚ
  returnedOrders : ℚ
  satisfactionScore : ℚ
deriving DecidableEq, Repr

/-- Result of a pandas float division: a finite value, a signed infinity,
or NaN. -/
inductive PdVal where
  | fin : ℚ → PdVal
  | posInf : PdVal
  | negInf : PdVal
  | nan : PdVal
deriving DecidableEq, Repr

/-- Pandas elementwise division `a / b`: on a zero denominator, `0 / 0` is
NaN and `a / 0` for nonzero `a` is a signed infinity; it never raises. -/
def pdDiv (a b : ℚ) : PdVal :=
  if b = 0 then
    if a = 0 then PdVal.nan
    else if 0 < a then PdVal.posInf
    else PdVal.negInf
  else PdVal.fin (a / b)

/-- Python `/` on numbers: raises ZeroDivisionError (modelled as `none`)
when the denominator is zero. -/
def pyDiv (a b : ℚ) : Option ℚ :=
  if b = 0 then none else some (a / b)

/-- Dictionary lookup as performed by `Series.map(dict)`: `none` models the
NaN produced for a key absent from the dictionary. -/
def mapLookup (m : List (String × ℚ)) (k : String) : Option ℚ :=
  (m.find? (fun p => p.1 == k)).map (fun p => p.2)

/-- A row of the derived customer table: the input record together with the
computed columns. `cac` and `roi` are `Option` because `Series.map` yields
NaN (here `none`) for a segment absent from the CAC dictionary, and NaN
propagates into `ROI = CLV - CAC`. `roiRatioVal` is `none` while the
ROI_Ratio column has not been added (load_data does not create it; the ROI
page does). -/
structure DerivedRow where
  record : CustomerRecord
  clv : ℚ
  returnRate : PdVal
  cac : Option ℚ
  roi : Option ℚ
  roiRatioVal : Option PdVal
deriving DecidableEq, Repr

/-- The default segment-to-CAC dictionary of load_data (src/app.py line 51). -/
def cac_map : List (String × ℚ) :=
  [("Premium", 500), ("Regular", 300), ("Budget", 200), ("Occasional", 150)]

/-- Derivation of the computed columns for one row, as load_data does it
(src/app.py lines 47-53): CLV, ReturnRate, CAC by dictionary lookup, and
ROI = CLV - CAC (NaN when CAC is NaN). -/
def deriveRow (cacMap : List (String × ℚ)) (r : CustomerRecord) : DerivedRow :=
  { record := r
  , clv := r.avgOrderValue * r.orderFrequency
  , returnRate := pdDiv r.returnedOrders r.orderFrequency
  , cac := mapLookup cacMap r.customerSegment
  , roi := (mapLookup cacMap r.customerSegment).map
      (fun c => r.avgOrderValue * r.orderFrequency - c)
  , roiRatioVal := none }

/-- The whole derivation of load_data over the table: every row is derived,
none is dropped, no error is signalled. -/
def deriveMetrics (cacMap : List (String × ℚ)) (rows : List CustomerRecord) :
    List DerivedRow :=
  rows.map (deriveRow cacMap)

/-- load_data with its built-in default CAC dictionary. -/
def load_data (rows : List CustomerRecord) : List DerivedRow :=
  deriveMetrics cac_map rows

/-- Scenario parameter bundle (src/app.py lines 1201-1223). -/
structure ScenarioParams where
  cac_reduction : ℚ
  retention_increase : ℚ
  frequency_increase : ℚ
  aov_increase : ℚ
  timeline : ℕ
deriving DecidableEq, Repr

/-- Current aggregate averages read from the derived table on the Simulated
Impact page (src/app.py lines 1233-1238). -/
structure CurrentAverages where
  cac : ℚ
  clv : ℚ
  roi : ℚ
  frequency : ℚ
  aov : ℚ
  satisfaction : ℚ
deriving DecidableEq, Repr

/-- Projected metrics computed on the Simulated Impact page. -/
structure ProjectedMetrics where
  cac : ℚ
  frequency : ℚ
  aov : ℚ
  clv : ℚ
  roi : ℚ
  satisfaction : ℚ
deriving DecidableEq, Repr

/-- Scenario projection (src/app.py lines 1241-1246): each projected metric
is an arithmetic expression over the current averages and the scenario
parameters, and projected satisfaction is capped at 5.0. -/
def project (cur : CurrentAverages) (p : ScenarioParams) : ProjectedMetrics :=
  let projected_cac := cur.cac * (1 - p.cac_reduction)
  let projected_frequency := cur.frequency * (1 + p.frequency_increase)
  let projected_aov := cur.aov * (1 + p.aov_increase)
  let projected_clv := projected_aov * projected_frequency
  let projected_roi := projected_clv - projected_cac
  let projected_satisfaction := min (cur.satisfaction * (11 / 10)) 5
  { cac := projected_cac
  , frequency := projected_frequency
  , aov := projected_aov
  , clv := projected_clv
  , roi := projected_roi
  , satisfaction := projected_satisfaction }

/-- Funnel stage counts from the Funnel Analysis page
(src/app.py lines 370-373). -/
def total_customers (df : List DerivedRow) : ℕ := df.length

/-- Count of rows with OrderFrequency at least 1 (src/app.py line 371). -/
def stage_1_order (df : List DerivedRow) : ℕ :=
  (df.filter (fun r => 1 ≤ r.record.orderFrequency)).length

/-- Count of rows with OrderFrequency between 2 and 3, both ends inclusive
as pandas `between` defaults to (src/app.py line 372). -/
def stage_2_3_orders (df : List DerivedRow) : ℕ :=
  (df.filter (fun r =>
    2 ≤ r.record.orderFrequency ∧ r.record.orderFrequency ≤ 3)).length

/-- Count of rows with OrderFrequency at least 4 (src/app.py line 373). -/
def stage_4plus_orders (df : List DerivedRow) : ℕ :=
  (df.filter (fun r => 4 ≤ r.record.orderFrequency)).length

/-- Funnel classification result. -/
structure FunnelCounts where
  registered : ℕ
  activeCount : ℕ
  engagedCount : ℕ
  loyalCount : ℕ
deriving DecidableEq, Repr

/-- The funnel classification of the Funnel Analysis page. -/
def classifyFunnel (df : List DerivedRow) : FunnelCounts :=
  { registered := total_customers df
  , activeCount := stage_1_order df
  , engagedCount := stage_2_3_orders df
  , loyalCount := stage_4plus_orders df }

/-- Drop-off percentage between two adjacent funnel stages, exactly as
computed on src/app.py lines 414-415: Python division of the count
difference by the upper-stage count, times 100. A zero upper-stage count
raises ZeroDivisionError, modelled as `none`. -/
def dropoff_rate (upper lower : ℕ) : Option ℚ :=
  (pyDiv ((upper : ℚ) - (lower : ℚ)) (upper : ℚ)).map (fun x => x * 100)

/-- The two drop-off figures of the Funnel Analysis page
(src/app.py lines 414-415). -/
def funnelDropoffs (df : List DerivedRow) : Option ℚ × Option ℚ :=
  (dropoff_rate (stage_1_order df) (stage_2_3_orders df),
   dropoff_rate (stage_2_3_orders df) (stage_4plus_orders df))

/-- True exactly on the NaN value. -/
def PdVal.isNan : PdVal → Bool
  | PdVal.nan => true
  | _ => false

/-- The finite part of a pandas value, when it has one. -/
def PdVal.finPart : PdVal → Option ℚ
  | PdVal.fin q => some q
  | _ => none

/-- Pandas `Series.mean` with its default `skipna=True`: NaN entries are
dropped, the remaining entries are summed (a signed infinity dominates the
sum, opposite infinities give NaN) and divided by the count of the
remaining entries. An all-NaN or empty series has mean NaN. -/
def pdMean (xs : List PdVal) : PdVal :=
  let vs := xs.filter (fun v => ! v.isNan)
  if vs.length = 0 then PdVal.nan
  else if PdVal.posInf ∈ vs ∧ PdVal.negInf ∈ vs then PdVal.nan
  else if PdVal.posInf ∈ vs then PdVal.posInf
  else if PdVal.negInf ∈ vs then PdVal.negInf
  else PdVal.fin ((vs.filterMap PdVal.finPart).sum / (vs.length : ℚ))

/-- Group sizes of `groupby("CustomerSegment").agg(CustomerID: count)` on
the ROI page (src/app.py lines 529-536): one entry per distinct segment
value, holding the number of rows carrying it. -/
def segment_roi_counts (df : List DerivedRow) : List (String × ℕ) :=
  ((df.map (fun r => r.record.customerSegment)).dedup).map
    (fun k => (k, (df.map (fun r => r.record.customerSegment)).count k))

/-- Column assignment on src/app.py line 517: the CAC column is
overwritten from the custom dictionary. -/
def setCACCol (m : List (String × ℚ)) (df : List DerivedRow) : List DerivedRow :=
  df.map (fun r => { r with cac := mapLookup m r.record.customerSegment })

/-- Column assignment on src/app.py line 518: ROI = CLV - CAC, reading the
CLV column already stored and the CAC column just written. -/
def setROICol (df : List DerivedRow) : List DerivedRow :=
  df.map (fun r => { r with roi := r.cac.map (fun c => r.clv - c) })

/-- Column assignment on src/app.py line 519: ROI_Ratio = CLV / CAC as a
pandas division (NaN for a NaN CAC, infinity or NaN for a zero CAC). -/
def setRoiQuotCol (df : List DerivedRow) : List DerivedRow :=
  df.map (fun r =>
    { r with roiRatioVal := some (match r.cac with
        | none => PdVal.nan
        | some c => pdDiv r.clv c) })

/-- The derived table df_custom of the ROI page (src/app.py lines 515-519):
a copy of the base table with the CAC, ROI and ROI_Ratio columns written
over it in sequence. -/
def df_custom (m : List (String × ℚ)) (df : List DerivedRow) : List DerivedRow :=
  setRoiQuotCol (setROICol (setCACCol m df))

/-- One-row statement of the same recomputation: only the CAC, ROI and
ROI_Ratio fields change, all from the new dictionary; the record, CLV and
ReturnRate fields are kept. -/
def applyCustomCAC (m : List (String × ℚ)) (r : DerivedRow) : DerivedRow :=
  let c := mapLookup m r.record.customerSegment
  { record := r.record
  , clv := r.clv
  , returnRate := r.returnRate
  , cac := c
  , roi := c.map (fun cv => r.clv - cv)
  , roiRatioVal := some (match c with
      | none => PdVal.nan
      | some cv => pdDiv r.clv cv) }

/-- A heap of dataframe objects: Python names hold references into it, and
pandas column assignment mutates the referenced object in place. -/
structure Store where
  heap : ℕ → List DerivedRow
  next : ℕ

/-- Allocation of a fresh dataframe object, as `df.copy()` or a filtering
expression does: a new reference, leaving every live object unchanged. -/
def Store.alloc (s : Store) (t : List DerivedRow) : Store × ℕ :=
  ({ heap := fun x => if x = s.next then t else s.heap x, next := s.next + 1 },
   s.next)

/-- In-place column assignment on the object behind reference `r`. -/
def Store.write (s : Store) (r : ℕ) (f : List DerivedRow → List DerivedRow) :
    Store :=
  { heap := fun x => if x = r then f (s.heap x) else s.heap x, next := s.next }

/-- The ROI page recomputation as the Python statements on src/app.py lines
515-519 execute: copy the base table into a fresh object, then mutate the
copy three times. Returns the final store and the reference bound to
df_custom. -/
def runROIPage (m : List (String × ℚ)) (s : Store) (dfRef : ℕ) : Store × ℕ :=
  let a := s.alloc (s.heap dfRef)
  let s1 := a.1
  let customRef := a.2
  let s2 := s1.write customRef (setCACCol m)
  let s3 := s2.write customRef setROICol
  let s4 := s3.write customRef setRoiQuotCol
  (s4, customRef)

/-- One equality filter `filtered_df[filtered_df[col] == v]`. -/
def filterEq (get : DerivedRow → String) (v : String) (df : List DerivedRow) :
    List DerivedRow :=
  df.filter (fun r => get r == v)

/-- The Data Exploration page filtering as the Python statements on
src/app.py lines 232-238 execute: copy the base table, then for each
selected filter rebind filtered_df to a fresh filtered object. `none`
stands for the "All" choice. Returns the final store and the reference
bound to filtered_df. -/
def runDataExploration (city seg zone : Option String) (s : Store)
    (dfRef : ℕ) : Store × ℕ :=
  let a := s.alloc (s.heap dfRef)
  let step := fun (get : DerivedRow → String) (sel : Option String)
      (p : Store × ℕ) =>
    match sel with
    | none => p
    | some v => p.1.alloc (filterEq get v (p.1.heap p.2))
  let b := step (fun r => r.record.city) city a
  let c := step (fun r => r.record.customerSegment) seg b
  step (fun r => r.record.zone) zone c

/-- C1: the scenario projection computes projectedCAC, projectedFreq,
projectedAOV, projectedCLV, projectedROI and projectedSatisfaction by the
stated formulas, for every input of current averages and every scenario
parameter set; in particular currentCAC=300 with cacReduction=0.25 gives
projectedCAC=225, currentFrequency=3.2 with frequencyIncrease=0.40 gives
projectedFreq=4.48, currentAOV=450 with aovIncrease=0.10 gives
projectedAOV=495, hence projectedCLV = 495 x 4.48 = 2217.6. -/
theorem scenario_projection_formulas :
    (∀ (cur : CurrentAverages) (p : ScenarioParams),
      (project cur p).cac = cur.cac * (1 - p.cac_reduction) ∧
      (project cur p).frequency = cur.frequency * (1 + p.frequency_increase) ∧
      (project cur p).aov = cur.aov * (1 + p.aov_increase) ∧
      (project cur p).clv = (project cur p).aov * (project cur p).frequency ∧
      (project cur p).roi = (project cur p).clv - (project cur p).cac ∧
      (project cur p).satisfaction = min (cur.satisfaction * (11 / 10)) 5) ∧
    ((project { cac := 300, clv := 0, roi := 0, frequency := 16 / 5,
                aov := 450, satisfaction := 4 }
              { cac_reduction := 1 / 4, retention_increase := 1 / 4,
                frequency_increase := 2 / 5, aov_increase := 1 / 10,
                timeline := 12 }).cac = 225 ∧
     (project { cac := 300, clv := 0, roi := 0, frequency := 16 / 5,
                aov := 450, satisfaction := 4 }
              { cac_reduction := 1 / 4, retention_increase := 1 / 4,
                frequency_increase := 2 / 5, aov_increase := 1 / 10,
                timeline := 12 }).frequency = 4.48 ∧
     (project { cac := 300, clv := 0, roi := 0, frequency := 16 / 5,
                aov := 450, satisfaction := 4 }
              { cac_reduction := 1 / 4, retention_increase := 1 / 4,
                frequency_increase := 2 / 5, aov_increase := 1 / 10,
                timeline := 12 }).aov = 495 ∧
     (project { cac := 300, clv := 0, roi := 0, frequency := 16 / 5,
                aov := 450, satisfaction := 4 }
              { cac_reduction := 1 / 4, retention_increase := 1 / 4,
                frequency_increase := 2 / 5, aov_increase := 1 / 10,
                timeline := 12 }).clv = 2217.6) := by
  refine ⟨fun cur p => ⟨rfl, rfl, rfl, rfl, rfl, rfl⟩, ?_, ?_, ?_, ?_⟩ <;>
    · simp only [project]
      norm_num

/-- C2: per-record derivation stores CLV = AvgOrderValue x OrderFrequency
exactly, the CAC looked up for the record segment (Premium gets 500 under
the default map), and ROI = CLV - CAC. -/
theorem derive_metrics_formulas :
    (∀ (m : List (String × ℚ)) (r : CustomerRecord),
      (deriveRow m r).clv = r.avgOrderValue * r.orderFrequency) ∧
    (∀ (m : List (String × ℚ)) (r : CustomerRecord) (c : ℚ),
      mapLookup m r.customerSegment = some c →
      (deriveRow m r).cac = some c ∧
      (deriveRow m r).roi = some ((deriveRow m r).clv - c)) ∧
    (∀ r : CustomerRecord, r.customerSegment = "Premium" →
      (deriveRow cac_map r).cac = some 500) := by
  refine ⟨fun m r => rfl, fun m r c h => ⟨h, ?_⟩, fun r h => ?_⟩
  · simp only [deriveRow, h]
    rfl
  · simp only [deriveRow, h]
    rfl

/-- Witness for C2 at a concrete Premium record under the default map. -/
theorem derive_metrics_formulas_witness :
    (deriveRow cac_map
      { customerID := 7, city := "Jaipur", zone := "North",
        customerSegment := "Premium", avgOrderValue := 450,
        orderFrequency := 2, returnedOrders := 0,
        satisfactionScore := 4 }).cac = some 500 ∧
    (deriveRow cac_map
      { customerID := 7, city := "Jaipur", zone := "North",
        customerSegment := "Premium", avgOrderValue := 450,
        orderFrequency := 2, returnedOrders := 0,
        satisfactionScore := 4 }).roi =
      some ((deriveRow cac_map
      { customerID := 7, city := "Jaipur", zone := "North",
        customerSegment := "Premium", avgOrderValue := 450,
        orderFrequency := 2, returnedOrders := 0,
        satisfactionScore := 4 }).clv - 500) :=
  derive_metrics_formulas.2.1 cac_map
    { customerID := 7, city := "Jaipur", zone := "North",
      customerSegment := "Premium", avgOrderValue := 450,
      orderFrequency := 2, returnedOrders := 0,
      satisfactionScore := 4 } 500 (by rfl)

/-- Counting a predicate and its complement covers the list. -/
theorem countP_add_countP_compl {α : Type} (l : List α) (p : α → Bool) :
    l.countP p + l.countP (fun a => ! p a) = l.length := by
  induction l with
  | nil => simp
  | cons a t ih =>
    simp only [List.countP_cons]
    cases h : p a <;> simp [h] <;> omega

/-- Pandas mean over a series whose non-NaN entries are all finite: the NaN
entries are dropped and the sum of the rest is divided by their number,
N - k for k NaN rows among N. -/
theorem pdMean_all_finite (xs : List PdVal)
    (hfin : ∀ v ∈ xs, v.isNan = false → (PdVal.finPart v).isSome)
    (hpos : 0 < xs.length - xs.countP PdVal.isNan) :
    pdMean xs = PdVal.fin
      (((xs.filter (fun v => ! v.isNan)).filterMap PdVal.finPart).sum /
        ((xs.length - xs.countP PdVal.isNan : ℕ) : ℚ)) := by
  have hc := countP_add_countP_compl xs PdVal.isNan
  have h1 : xs.countP (fun v => ! PdVal.isNan v) =
      (xs.filter (fun v => ! v.isNan)).length :=
    List.countP_eq_length_filter _ _
  have hlen : (xs.filter (fun v => ! v.isNan)).length =
      xs.length - xs.countP PdVal.isNan := by omega
  have hpne : PdVal.posInf ∉ xs.filter (fun v => ! v.isNan) := by
    intro hm
    rcases List.mem_filter.1 hm with ⟨hmx, _⟩
    have hs := hfin _ hmx rfl
    simp [PdVal.finPart] at hs
  have hnne : PdVal.negInf ∉ xs.filter (fun v => ! v.isNan) := by
    intro hm
    rcases List.mem_filter.1 hm with ⟨hmx, _⟩
    have hs := hfin _ hmx rfl
    simp [PdVal.finPart] at hs
  have hvs0 : ¬ (xs.filter (fun v => ! v.isNan)).length = 0 := by omega
  simp only [pdMean]
  rw [if_neg hvs0, if_neg (fun h => hpne h.1), if_neg hpne, if_neg hnne, hlen]

/-- C3 counterexample: a record with OrderFrequency = 0 and
ReturnedOrders = 1 gets ReturnRate = positive infinity under pandas
division, not NaN. -/
theorem returnRate_inf_counterexample :
    (deriveRow cac_map
      { customerID := 1, city := "Jaipur", zone := "North",
        customerSegment := "Regular", avgOrderValue := 100,
        orderFrequency := 0, returnedOrders := 1,
        satisfactionScore := 3 }).returnRate = PdVal.posInf ∧
    PdVal.posInf ≠ PdVal.nan := by
  refine ⟨?_, by decide⟩
  norm_num [deriveRow, pdDiv]

/-- C3 amended: a record with OrderFrequency = 0 gets ReturnRate = NaN
exactly when ReturnedOrders = 0 (a positive ReturnedOrders gives positive
infinity instead), and a pandas mean drops NaN entries, dividing by N - k
when k of the N rows are NaN; the code itself computes no aggregate over
ReturnRate. -/
theorem returnRate_zero_frequency_policy :
    (∀ (m : List (String × ℚ)) (r : CustomerRecord),
      r.orderFrequency = 0 → r.returnedOrders = 0 →
      (deriveRow m r).returnRate = PdVal.nan) ∧
    (∀ (m : List (String × ℚ)) (r : CustomerRecord),
      r.orderFrequency = 0 → 0 < r.returnedOrders →
      (deriveRow m r).returnRate = PdVal.posInf) ∧
    (∀ xs : List PdVal,
      (∀ v ∈ xs, v.isNan = false → (PdVal.finPart v).isSome) →
      0 < xs.length - xs.countP PdVal.isNan →
      pdMean xs = PdVal.fin
        (((xs.filter (fun v => ! v.isNan)).filterMap PdVal.finPart).sum /
          ((xs.length - xs.countP PdVal.isNan : ℕ) : ℚ))) := by
  refine ⟨fun m r hf hr => ?_, fun m r hf hr => ?_, pdMean_all_finite⟩
  · simp [deriveRow, pdDiv, hf, hr]
  · simp [deriveRow, pdDiv, hf, hr.ne.symm, hr]

/-- Witness for C3 amended: a zero-returns zero-frequency record gets NaN,
and the pandas mean of one finite entry and one NaN entry divides by one,
not two. -/
theorem returnRate_zero_frequency_policy_witness :
    (deriveRow cac_map
      { customerID := 2, city := "Indore", zone := "East",
        customerSegment := "Budget", avgOrderValue := 50,
        orderFrequency := 0, returnedOrders := 0,
        satisfactionScore := 2 }).returnRate = PdVal.nan ∧
    pdMean [PdVal.fin 2, PdVal.nan] = PdVal.fin 2 := by
  constructor
  · exact returnRate_zero_frequency_policy.1 cac_map
      { customerID := 2, city := "Indore", zone := "East",
        customerSegment := "Budget", avgOrderValue := 50,
        orderFrequency := 0, returnedOrders := 0,
        satisfactionScore := 2 } rfl rfl
  · have h := returnRate_zero_frequency_policy.2.2
      [PdVal.fin 2, PdVal.nan] (by decide) (by decide)
    simpa [PdVal.isNan, PdVal.finPart] using h

/-- C4 counterexample: a record whose segment "VIP" is absent from the
default CAC map is kept by the derivation, with a silently missing CAC and
ROI; no error is signalled. -/
theorem unmapped_segment_counterexample :
    (deriveMetrics cac_map
      [{ customerID := 9, city := "Indore", zone := "South",
         customerSegment := "VIP", avgOrderValue := 100,
         orderFrequency := 2, returnedOrders := 0,
         satisfactionScore := 4 }]).length = 1 ∧
    (deriveRow cac_map
      { customerID := 9, city := "Indore", zone := "South",
        customerSegment := "VIP", avgOrderValue := 100,
        orderFrequency := 2, returnedOrders := 0,
        satisfactionScore := 4 }).cac = none ∧
    (deriveRow cac_map
      { customerID := 9, city := "Indore", zone := "South",
        customerSegment := "VIP", avgOrderValue := 100,
        orderFrequency := 2, returnedOrders := 0,
        satisfactionScore := 4 }).roi = none := by
  refine ⟨rfl, rfl, rfl⟩

/-- C4 amended: the derivation never rejects anything; it keeps every
record, and a record whose segment is absent from the mapping silently
gets missing (NaN) CAC and ROI values. -/
theorem unmapped_segment_silent :
    (∀ (m : List (String × ℚ)) (rows : List CustomerRecord),
      (deriveMetrics m rows).length = rows.length) ∧
    (∀ (m : List (String × ℚ)) (r : CustomerRecord),
      mapLookup m r.customerSegment = none →
      (deriveRow m r).cac = none ∧ (deriveRow m r).roi = none) := by
  refine ⟨fun m rows => by simp [deriveMetrics],
    fun m r h => ⟨h, by simp [deriveRow, h]⟩⟩

/-- Witness for C4 amended at a concrete unmapped record. -/
theorem unmapped_segment_silent_witness :
    (deriveRow cac_map
      { customerID := 10, city := "Bhopal", zone := "West",
        customerSegment := "Platinum", avgOrderValue := 80,
        orderFrequency := 1, returnedOrders := 0,
        satisfactionScore := 5 }).cac = none ∧
    (deriveRow cac_map
      { customerID := 10, city := "Bhopal", zone := "West",
        customerSegment := "Platinum", avgOrderValue := 80,
        orderFrequency := 1, returnedOrders := 0,
        satisfactionScore := 5 }).roi = none :=
  unmapped_segment_silent.2 cac_map
    { customerID := 10, city := "Bhopal", zone := "West",
      customerSegment := "Platinum", avgOrderValue := 80,
      orderFrequency := 1, returnedOrders := 0,
      satisfactionScore := 5 } rfl

/-- C5 counterexample: on the empty table every stage count is 0 and the
first drop-off computation raises ZeroDivisionError (no value) instead of
returning 0; moreover the code returns a percentage, one hundred times the
claimed ratio. -/
theorem dropoff_rate_counterexample :
    (funnelDropoffs []).1 = none ∧
    dropoff_rate 2 1 = some 50 ∧ ((2 : ℚ) - 1) / 2 ≠ 50 := by
  refine ⟨rfl, ?_, by norm_num⟩
  norm_num [dropoff_rate, pyDiv]

/-- C5 amended: between adjacent stages the code computes the percentage
(upper - lower) / upper x 100 when the upper count is nonzero, and raises
ZeroDivisionError (modelled as no value) when the upper count is zero. -/
theorem dropoff_rate_formula (u l : ℕ) :
    (u ≠ 0 → dropoff_rate u l =
      some (((u : ℚ) - (l : ℚ)) / (u : ℚ) * 100)) ∧
    (u = 0 → dropoff_rate u l = none) := by
  constructor
  · intro hu
    have hq : ((u : ℚ)) ≠ 0 := Nat.cast_ne_zero.2 hu
    simp [dropoff_rate, pyDiv, hq]
  · intro hu
    subst hu
    simp [dropoff_rate, pyDiv]

/-- Witness for C5 amended: 4 upper and 1 lower give a 75 percent
drop-off, and a zero upper count gives no value. -/
theorem dropoff_rate_formula_witness :
    dropoff_rate 4 1 = some 75 ∧ dropoff_rate 0 5 = none := by
  constructor
  · have h := (dropoff_rate_formula 4 1).1 (by decide)
    rw [h]
    norm_num
  · exact (dropoff_rate_formula 0 5).2 rfl

/-- C6: the funnel classification returns the total row count and the
counts of rows with OrderFrequency at least 1, in the closed band from 2
to 3, and at least 4. -/
theorem classifyFunnel_counts (df : List DerivedRow) :
    (classifyFunnel df).registered = df.length ∧
    (classifyFunnel df).activeCount =
      df.countP (fun r => decide (1 ≤ r.record.orderFrequency)) ∧
    (classifyFunnel df).engagedCount =
      df.countP (fun r => decide (r.record.orderFrequency ∈ Set.Icc (2 : ℚ) 3)) ∧
    (classifyFunnel df).loyalCount =
      df.countP (fun r => decide (4 ≤ r.record.orderFrequency)) := by
  refine ⟨rfl, ?_, ?_, ?_⟩ <;>
    simp [classifyFunnel, stage_1_order, stage_2_3_orders, stage_4plus_orders,
      List.countP_eq_length_filter, Set.mem_Icc]

/-- Counting two mutually exclusive predicates, each implying a third,
never exceeds the count of the third. -/
theorem countP_disjoint_le {α : Type} (l : List α) (p q r : α → Bool)
    (hpr : ∀ a, p a = true → r a = true)
    (hqr : ∀ a, q a = true → r a = true)
    (hpq : ∀ a, ¬(p a = true ∧ q a = true)) :
    l.countP p + l.countP q ≤ l.countP r := by
  induction l with
  | nil => simp
  | cons a t ih =>
    simp only [List.countP_cons]
    cases hb : p a <;> cases hc : q a
    · cases hd : r a <;> simp <;> omega
    · have := hqr a hc
      simp [this]
      omega
    · have := hpr a hb
      simp [this]
      omega
    · exact absurd ⟨hb, hc⟩ (hpq a)

/-- C7: funnel counts satisfy registered at least activeCount at least 0,
and engagedCount + loyalCount at most activeCount, the engaged band and
the loyal band being disjoint subsets of the active rows. -/
theorem funnel_count_invariants (df : List DerivedRow) :
    (classifyFunnel df).activeCount ≤ (classifyFunnel df).registered ∧
    0 ≤ (classifyFunnel df).activeCount ∧
    (classifyFunnel df).engagedCount + (classifyFunnel df).loyalCount ≤
      (classifyFunnel df).activeCount := by
  refine ⟨List.length_filter_le _ _, Nat.zero_le _, ?_⟩
  show stage_2_3_orders df + stage_4plus_orders df ≤ stage_1_order df
  rw [stage_2_3_orders, stage_4plus_orders, stage_1_order,
    ← List.countP_eq_length_filter, ← List.countP_eq_length_filter,
    ← List.countP_eq_length_filter]
  refine countP_disjoint_le df _ _ _ ?_ ?_ ?_
  · intro a h
    simp only [decide_eq_true_eq] at h ⊢
    linarith [h.1]
  · intro a h
    simp only [decide_eq_true_eq] at h ⊢
    linarith
  · rintro a ⟨h1, h2⟩
    simp only [decide_eq_true_eq] at h1 h2
    linarith [h1.2]

/-- Group sizes of the segment grouping always sum to the table length. -/
theorem segment_roi_counts_sum_eq_length (df : List DerivedRow) :
    ((segment_roi_counts df).map Prod.snd).sum = df.length := by
  simp only [segment_roi_counts, List.map_map]
  have h2 := List.sum_map_count_dedup_eq_length
    (df.map (fun r => r.record.customerSegment))
  simpa using h2

/-- C8: when every segment of the input is present in the CAC mapping, the
per-group counts of the ROI page grouping over the custom-CAC table sum to
the number of input records: no row is dropped or duplicated. -/
theorem segment_group_counts_sum (m : List (String × ℚ))
    (rows : List CustomerRecord)
    (h : ∀ r ∈ rows, (mapLookup m r.customerSegment).isSome) :
    ((segment_roi_counts (df_custom m (load_data rows))).map Prod.snd).sum
      = rows.length := by
  rw [segment_roi_counts_sum_eq_length]
  simp [df_custom, setCACCol, setROICol, setRoiQuotCol, load_data,
    deriveMetrics]

/-- Witness for C8 on a concrete two-row table whose segments are both
mapped. -/
theorem segment_group_counts_sum_witness :
    ((segment_roi_counts (df_custom cac_map (load_data
      [{ customerID := 1, city := "Jaipur", zone := "Z1",
         customerSegment := "Premium", avgOrderValue := 10,
         orderFrequency := 2, returnedOrders := 0, satisfactionScore := 4 },
       { customerID := 2, city := "Indore", zone := "Z2",
         customerSegment := "Regular", avgOrderValue := 20,
         orderFrequency := 1, returnedOrders := 0,
         satisfactionScore := 3 }]))).map Prod.snd).sum = 2 := by
  have h := segment_group_counts_sum cac_map
    [{ customerID := 1, city := "Jaipur", zone := "Z1",
       customerSegment := "Premium", avgOrderValue := 10,
       orderFrequency := 2, returnedOrders := 0, satisfactionScore := 4 },
     { customerID := 2, city := "Indore", zone := "Z2",
       customerSegment := "Regular", avgOrderValue := 20,
       orderFrequency := 1, returnedOrders := 0,
       satisfactionScore := 3 }] (by decide)
  simpa using h

/-- Allocation leaves every previously allocated object unchanged. -/
theorem Store.alloc_heap_of_lt (s : Store) (t : List DerivedRow) (r : ℕ)
    (h : r < s.next) : ((s.alloc t).1).heap r = s.heap r := by
  simp only [Store.alloc]
  exact if_neg (by omega)

/-- Writing through one reference leaves every other object unchanged. -/
theorem Store.write_heap_of_ne (s : Store) (x : ℕ)
    (f : List DerivedRow → List DerivedRow) (r : ℕ) (h : r ≠ x) :
    (s.write x f).heap r = s.heap r := by
  simp only [Store.write]
  exact if_neg h

/-- C9: neither the ROI page recomputation nor the Data Exploration
filtering mutates the base table object: both pages copy it into fresh
objects and write only those, so after either page runs the object behind
the base reference is unchanged. -/
theorem base_table_not_mutated (m : List (String × ℚ))
    (city seg zone : Option String) (s : Store) (dfRef : ℕ)
    (h : dfRef < s.next) :
    (runROIPage m s dfRef).1.heap dfRef = s.heap dfRef ∧
    (runDataExploration city seg zone s dfRef).1.heap dfRef = s.heap dfRef := by
  constructor
  · simp only [runROIPage, Store.alloc, Store.write]
    split_ifs <;> first | omega | rfl
  · cases city <;> cases seg <;> cases zone <;>
      simp only [runDataExploration, Store.alloc, Store.write, filterEq] <;>
      (split_ifs <;> first | omega | rfl)

/-- Witness for C9 on a concrete one-object store. -/
theorem base_table_not_mutated_witness :
    (runROIPage cac_map { heap := fun _ => [], next := 1 } 0).1.heap 0 =
      ({ heap := fun _ => [], next := 1 } : Store).heap 0 ∧
    (runDataExploration (some "Jaipur") none none
        { heap := fun _ => [], next := 1 } 0).1.heap 0 =
      ({ heap := fun _ => [], next := 1 } : Store).heap 0 :=
  base_table_not_mutated cac_map (some "Jaipur") none none
    { heap := fun _ => [], next := 1 } 0 (by decide)

/-- C10: recomputation under a custom CAC mapping rewrites exactly the
CAC, ROI and ROI_Ratio columns from the new mapping; for every row the
record columns, CLV and ReturnRate keep the values of the base derived
table. -/
theorem df_custom_frame (m : List (String × ℚ)) (df : List DerivedRow) :
    df_custom m df = df.map (applyCustomCAC m) ∧
    ∀ r : DerivedRow,
      (applyCustomCAC m r).record = r.record ∧
      (applyCustomCAC m r).clv = r.clv ∧
      (applyCustomCAC m r).returnRate = r.returnRate ∧
      (applyCustomCAC m r).cac = mapLookup m r.record.customerSegment ∧
      (applyCustomCAC m r).roi =
        (mapLookup m r.record.customerSegment).map (fun c => r.clv - c) ∧
      (applyCustomCAC m r).roiRatioVal =
        some (match mapLookup m r.record.customerSegment with
          | none => PdVal.nan
          | some cv => pdDiv r.clv cv) := by
  refine ⟨?_, fun r => ⟨rfl, rfl, rfl, rfl, rfl, rfl⟩⟩
  simp only [df_custom, setCACCol, setROICol, setRoiQuotCol, List.map_map]
  rfl
